import Mathlib

/-!
Verification development for the PDF heading-extraction pipeline
(`1a.py`, class `PDFHeadingExtractor`).

The Python source is shallowly embedded below.  Conventions:
* Python floats are modelled by `ℚ` (all constants in the program are
  exact decimals, and every property checked here is robust to the
  float/rational distinction);
* Python's `re` patterns are modelled by a small classical
  regular-expression datatype with Brzozowski-derivative matching.
  `bool(p.match(s))` / `bool(p.search(s))` only ask whether a match
  exists, which is exactly language membership (the source patterns use
  no backreferences; the one lookbehind is vacuous, see
  `heading_patterns`);
* Python dicts holding line features are modelled by the structure
  `LineRec`; the `whitespace_below` key, which no producer ever writes,
  is modelled by an `Option` field;
* code that can raise is modelled in `Except Unit`;
* Python's `sorted` (a stable sort) is modelled by Mathlib's
  `List.insertionSort` with the reflexive "comes no later than"
  relation for the given key, which is also stable, and a stable sort's
  output is uniquely determined by the key and the input order.
-/

set_option maxRecDepth 4000

/-! ## Python string primitives -/

/-- Python whitespace (`\s`, `str.strip`, `str.split`) restricted to
ASCII, which is the alphabet of every string handled here. -/
def isPySpace (c : Char) : Bool :=
  c = ' ' || c = '\t' || c = '\n' || c = '\r' || c = '\x0b' || c = '\x0c'

/-- `str.strip()`. -/
def pyStripL (s : List Char) : List Char :=
  ((s.dropWhile isPySpace).reverse.dropWhile isPySpace).reverse

def pyStrip (s : String) : String := String.mk (pyStripL s.data)

/-- `str.lower()` (ASCII). -/
def pyLower (s : String) : String := String.mk (s.data.map Char.toLower)

/-- `re.sub(r'\s+', ' ', text)`: every maximal whitespace run becomes one
space. -/
def collapseWsL : List Char → List Char
  | [] => []
  | c :: rest =>
    if isPySpace c then ' ' :: collapseWsL (rest.dropWhile isPySpace)
    else c :: collapseWsL rest
termination_by l => l.length
decreasing_by
  · exact Nat.lt_succ_of_le ((List.dropWhile_sublist _).length_le)
  · simp

def collapseWs (s : String) : String := String.mk (collapseWsL s.data)

/-- `len(text.split())`: the number of maximal non-whitespace runs. -/
def pyWordCountGo : List Char → Bool → Nat
  | [], _ => 0
  | c :: rest, inWord =>
    if isPySpace c then pyWordCountGo rest false
    else (if inWord then 0 else 1) + pyWordCountGo rest true

def pyWordCount (s : String) : Nat := pyWordCountGo s.data false

/-- `needle in hay` (substring containment). -/
def containsSub (needle : List Char) : List Char → Bool
  | [] => needle.isEmpty
  | c :: rest => needle.isPrefixOf (c :: rest) || containsSub needle rest

/-- `str.istitle()`: cased runs start with an uppercase letter followed
only by lowercase, and at least one cased character occurs (ASCII). -/
def pyIstitleGo : List Char → Bool → Bool → Bool
  | [], _, found => found
  | c :: rest, prevCased, found =>
    if c.isUpper then (if prevCased then false else pyIstitleGo rest true true)
    else if c.isLower then (if prevCased then pyIstitleGo rest true true else false)
    else pyIstitleGo rest false found

def pyIstitle (s : String) : Bool := pyIstitleGo s.data false false

/-- `str.isupper()`: no lowercase cased characters and at least one
cased character (ASCII). -/
def pyIsupper (s : String) : Bool :=
  s.data.all (fun c => !c.isLower) && s.data.any (fun c => c.isUpper)

/-! ## Python numeric primitives -/

/-- Mathematical floor of a rational, computably. -/
def ratFloor (q : ℚ) : ℤ := Int.fdiv q.num q.den

/-- Python `int(x)`: truncation toward zero. -/
def pyInt (q : ℚ) : ℤ := Int.tdiv q.num q.den

/-- Python `round(x, 2)` on exact values: round half to even at two
decimal places. -/
def round2 (q : ℚ) : ℚ :=
  let w : ℤ := ratFloor (q * 100)
  let frac : ℚ := q * 100 - w
  let r : ℤ :=
    if frac < 1/2 then w
    else if 1/2 < frac then w + 1
    else if w % 2 = 0 then w else w + 1
  (r : ℚ) / 100

/-! ## Regular expressions (Brzozowski derivatives)

Character classes are first order so that regular expressions have
decidable equality (used by the simplifying smart constructors). -/

inductive CC where
  | ccEq (c : Char)
  | ccCi (c : Char)
  | ccSet (cs : List Char)
  | ccSetCI (cs : List Char)
  | ccDigit
  | ccWs
  | ccWord
  | ccLetter
  | ccUpper
  | ccDot
  | ccAny
deriving DecidableEq

/-- Does character `c` belong to the class?  `ccCi c0` holds the
lowercase form and matches case-insensitively; `ccDot` is `.` (anything
but a newline); `ccWord` is `\w`. -/
def ccMatch : CC → Char → Bool
  | CC.ccEq a, c => c = a
  | CC.ccCi a, c => c.toLower = a
  | CC.ccSet cs, c => cs.contains c
  | CC.ccSetCI cs, c => cs.contains c.toLower
  | CC.ccDigit, c => c.isDigit
  | CC.ccWs, c => isPySpace c
  | CC.ccWord, c => c.isAlpha || c.isDigit || c = '_'
  | CC.ccLetter, c => c.isAlpha
  | CC.ccUpper, c => c.isUpper
  | CC.ccDot, c => c ≠ '\n'
  | CC.ccAny, _ => true

inductive RE where
  | emp
  | eps
  | cls (cc : CC)
  | cat (a b : RE)
  | alt (a b : RE)
  | star (a : RE)
deriving DecidableEq

def nullable : RE → Bool
  | RE.emp => false
  | RE.eps => true
  | RE.cls _ => false
  | RE.cat a b => nullable a && nullable b
  | RE.alt a b => nullable a || nullable b
  | RE.star _ => true

/-- Simplifying concatenation, keeping derivatives small. -/
def mkCat (a b : RE) : RE :=
  if a = RE.emp || b = RE.emp then RE.emp
  else if a = RE.eps then b
  else if b = RE.eps then a
  else RE.cat a b

/-- Simplifying alternation, keeping derivatives small. -/
def mkAlt (a b : RE) : RE :=
  if a = RE.emp then b
  else if b = RE.emp then a
  else if a = b then a
  else RE.alt a b

def derivRE (c : Char) : RE → RE
  | RE.emp => RE.emp
  | RE.eps => RE.emp
  | RE.cls cc => if ccMatch cc c then RE.eps else RE.emp
  | RE.cat a b =>
    if nullable a then mkAlt (mkCat (derivRE c a) b) (derivRE c b)
    else mkCat (derivRE c a) b
  | RE.alt a b => mkAlt (derivRE c a) (derivRE c b)
  | RE.star a => mkCat (derivRE c a) (RE.star a)

/-- Language membership: does the whole character list belong to the
language of `r`? -/
def reMatchL (r : RE) (s : List Char) : Bool :=
  nullable (s.foldl (fun r c => derivRE c r) r)

def reMatchS (r : RE) (s : String) : Bool := reMatchL r s.data

/-! ### Regex construction helpers -/

def reChar (c : Char) : RE := RE.cls (CC.ccEq c)

/-- Literal string (case sensitive). -/
def reLit (s : String) : RE := s.data.foldr (fun c r => RE.cat (reChar c) r) RE.eps

/-- Literal string matched case-insensitively; supply it in lowercase. -/
def reLitCI (s : String) : RE :=
  s.data.foldr (fun c r => RE.cat (RE.cls (CC.ccCi c)) r) RE.eps

def reWs0 : RE := RE.star (RE.cls CC.ccWs)

def reWs1 : RE := RE.cat (RE.cls CC.ccWs) reWs0

def reDigit : RE := RE.cls CC.ccDigit

def reDigits1 : RE := RE.cat reDigit (RE.star reDigit)

def reOpt (r : RE) : RE := RE.alt RE.eps r

/-- `.` -/
def reDot : RE := RE.cls CC.ccDot

/-- `.*` -/
def reDotStar : RE := RE.star reDot

/-- Matches any remaining characters (used to model `re.match`, which
anchors only at the start). -/
def reAnyStar : RE := RE.star (RE.cls CC.ccAny)

/-- `r{n}` -/
def reRep : Nat → RE → RE
  | 0, _ => RE.eps
  | n + 1, r => RE.cat r (reRep n r)

/-- `r{n,}` -/
def reAtLeast (n : Nat) (r : RE) : RE := RE.cat (reRep n r) (RE.star r)

/-- `r{lo,hi}` -/
def reRepRange (lo hi : Nat) (r : RE) : RE :=
  RE.cat (reRep lo r) (reRep (hi - lo) (reOpt r))

def reCatL (rs : List RE) : RE := rs.foldr RE.cat RE.eps

def reAltL (rs : List RE) : RE := rs.foldr RE.alt RE.emp

/-! ## The regular expressions of the source

Each definition carries the Python pattern it embeds.  Patterns used
with `.match` (anchored at the start only) get a trailing `reAnyStar`;
patterns both anchored or used with `.search` while starting with `^`
and ending with `$` are encoded as their full-string language; patterns
used with `.search` and unanchored are wrapped by `reSearchWrap`.  All
strings fed to these matchers are produced by `.strip()` and contain no
trailing newline, so `$` is end-of-string. -/

/-- `search` semantics for an unanchored pattern: some substring lies in
the language of `r`. -/
def reSearchWrap (r : RE) : RE := reCatL [reAnyStar, r, reAnyStar]

def reColonDot : RE := reOpt (RE.cls (CC.ccSet ":.".data))

def reRomanCI : RE := reAtLeast 1 (RE.cls (CC.ccSetCI "ivxlcdm".data))

def reLetter : RE := RE.cls CC.ccLetter

/-- The apostrophe character (written by code so the file itself
contains none). -/
def apoChar : Char := Char.ofNat 39

/-- `NON_CONTENT_PATTERNS` (source lines 59-81), each already wrapped
with its `p.search(text_lower)` semantics. -/
def NON_CONTENT_PATTERNS : List RE :=
  [ -- r"^\s*\d+\s*$"
    reCatL [reWs0, reDigits1, reWs0],
    -- r"^\s*-\s*\d+\s*-\s*$"
    reCatL [reWs0, reChar '-', reWs0, reDigits1, reWs0, reChar '-', reWs0],
    -- r"^\s*page\s+\d+\s*$"
    reCatL [reWs0, reLitCI "page", reWs1, reDigits1, reWs0],
    -- r"^\s*page\s+\d+\s+of\s+\d+\s*$"
    reCatL [reWs0, reLitCI "page", reWs1, reDigits1, reWs1, reLitCI "of", reWs1,
      reDigits1, reWs0],
    -- r"^\s*([ivxlcdm]+|[a-z])\s*$" (IGNORECASE makes [a-z] any letter)
    reCatL [reWs0, RE.alt reRomanCI reLetter, reWs0],
    -- r"www\.", r"\.gov", r"\.org", r"\.com"
    reSearchWrap (reLitCI "www."), reSearchWrap (reLitCI ".gov"),
    reSearchWrap (reLitCI ".org"), reSearchWrap (reLitCI ".com"),
    -- r"confidential", r"proprietar", r"draft"
    reSearchWrap (reLitCI "confidential"), reSearchWrap (reLitCI "proprietar"),
    reSearchWrap (reLitCI "draft"),
    -- r"author", r"doi:", r"copyright", r"version\s*\d"
    reSearchWrap (reLitCI "author"), reSearchWrap (reLitCI "doi:"),
    reSearchWrap (reLitCI "copyright"),
    reSearchWrap (reCatL [reLitCI "version", reWs0, reDigit]),
    -- r"all\s+rights\s+reserved", r"contact\s+information"
    reSearchWrap (reCatL [reLitCI "all", reWs1, reLitCI "rights", reWs1, reLitCI "reserved"]),
    reSearchWrap (reCatL [reLitCI "contact", reWs1, reLitCI "information"]),
    -- r"revision\s+history", r"document\s+id", r"file\s+id"
    reSearchWrap (reCatL [reLitCI "revision", reWs1, reLitCI "history"]),
    reSearchWrap (reCatL [reLitCI "document", reWs1, reLitCI "id"]),
    reSearchWrap (reCatL [reLitCI "file", reWs1, reLitCI "id"]),
    -- r"boscha{0,1}\s+north\s+america"
    reSearchWrap (reCatL [reLitCI "bosch", reOpt (RE.cls (CC.ccCi 'a')), reWs1,
      reLitCI "north", reWs1, reLitCI "america"]),
    -- r"mutual\s+nda", r"rev\.\s*\d{4}\.\d{2}\.\d{2}"
    reSearchWrap (reCatL [reLitCI "mutual", reWs1, reLitCI "nda"]),
    reSearchWrap (reCatL [reLitCI "rev.", reWs0, reRep 4 reDigit, reChar '.',
      reRep 2 reDigit, reChar '.', reRep 2 reDigit]),
    -- r"gretchen whitmer", r"by the governor", r"secretary of state"
    reSearchWrap (reLitCI "gretchen whitmer"),
    reSearchWrap (reLitCI "by the governor"),
    reSearchWrap (reLitCI "secretary of state"),
    -- r"\d{1,3}\s+(?:south|north|east|west)?\s*capitol"
    reSearchWrap (reCatL [reRepRange 1 3 reDigit, reWs1,
      reOpt (reAltL [reLitCI "south", reLitCI "north", reLitCI "east", reLitCI "west"]),
      reWs0, reLitCI "capitol"]),
    -- r"george w\. romney building", r"printed in-house"
    reSearchWrap (reLitCI "george w. romney building"),
    reSearchWrap (reLitCI "printed in-house"),
    -- r"^\s*[\*#\-_=\s]{3,}$"
    reCatL [reWs0,
      reAtLeast 3 (RE.alt (RE.cls (CC.ccSet "*#-_=".data)) (RE.cls CC.ccWs))],
    -- r"^\s*(?:p\.?|pg\.?)\s*\d+\s*$"
    reCatL [reWs0,
      RE.alt (RE.cat (RE.cls (CC.ccCi 'p')) (reOpt (reChar '.')))
        (RE.cat (reLitCI "pg") (reOpt (reChar '.'))),
      reWs0, reDigits1, reWs0],
    -- r"rfp:\s+to\s+develop\s+the\s+ontario\s+digital\s+library\s+business\s+plan\s+march\s+\d{4}"
    reSearchWrap (reCatL [reLitCI "rfp:", reWs1, reLitCI "to", reWs1, reLitCI "develop",
      reWs1, reLitCI "the", reWs1, reLitCI "ontario", reWs1, reLitCI "digital", reWs1,
      reLitCI "library", reWs1, reLitCI "business", reWs1, reLitCI "plan", reWs1,
      reLitCI "march", reWs1, reRep 4 reDigit]),
    -- the next source pattern contains an apostrophe after "ontario"
    reSearchWrap (reCatL [reLitCI "ontario", reChar apoChar, RE.cls (CC.ccCi 's'),
      reWs1, reLitCI "libraries"]),
    -- r"working\s+together", r"connecting\s+ontarians!"
    reSearchWrap (reCatL [reLitCI "working", reWs1, reLitCI "together"]),
    reSearchWrap (reCatL [reLitCI "connecting", reWs1, reLitCI "ontarians!"]) ]

/-- `any(p.search(text_lower) for p in self.NON_CONTENT_PATTERNS)`. -/
def nonContentHit (s : String) : Bool :=
  NON_CONTENT_PATTERNS.any (fun r => reMatchS r s)

/-- `heading_patterns` (source lines 32-41), all compiled IGNORECASE
and applied with `.match`; all seven end with `$`, hence full-string
languages.  Under IGNORECASE `[A-Z]` and `[a-z]` both mean any letter.
The lookbehind `(?<!\.)` of the fourth pattern always holds there (the
preceding character was matched by `[A-Z\s]`, never a period). -/
def heading_patterns : List RE :=
  [ -- r"^\s*(?:Chapter|Section|Part|Appendix)\s+(?:\d+|[IVXLCDM]+)(?:\.\d+)*\s*[:\.]?$"
    reCatL [reWs0,
      reAltL [reLitCI "chapter", reLitCI "section", reLitCI "part", reLitCI "appendix"],
      reWs1, RE.alt reDigits1 reRomanCI,
      RE.star (RE.cat (reChar '.') reDigits1), reWs0, reColonDot],
    -- r"^\s*\d+(\.\d+)*\.?\s*[A-Z].*?[:\.]?$"
    reCatL [reWs0, reDigits1, RE.star (RE.cat (reChar '.') reDigits1),
      reOpt (reChar '.'), reWs0, reLetter, reDotStar, reColonDot],
    -- r"^\s*[IVXLCDM]+\s+[A-Z].*?[:\.]?$"
    reCatL [reWs0, reRomanCI, reWs1, reLetter, reDotStar, reColonDot],
    -- r"^[A-Z][A-Z\s]{5,}(?<!\.)\s*$"
    reCatL [reLetter, reAtLeast 5 (RE.alt reLetter (RE.cls CC.ccWs)), reWs0],
    -- r"^[A-Z][a-z]+(?:\s+[A-Z][a-z]*)*\s*[:\.]?$"
    reCatL [reLetter, reAtLeast 1 reLetter,
      RE.star (reCatL [reWs1, reLetter, RE.star reLetter]), reWs0, reColonDot],
    -- r"^\s*\([a-z]\)\s+[A-Z].*?[:\.]?$"
    reCatL [reWs0, reChar '(', reLetter, reChar ')', reWs1, reLetter, reDotStar, reColonDot],
    -- r"^\s*[a-z]\.\s+[A-Z].*?[:\.]?$"
    reCatL [reWs0, reLetter, reChar '.', reWs1, reLetter, reDotStar, reColonDot] ]

/-- r"^\s*(\d+(\.\d+)*\.?|[A-Z][a-zA-Z]*\.|\([a-zA-Z]\)|\d+\))\s*" from
feature extraction (source line 256); case sensitive, `.match`, no `$`. -/
def reEnum : RE :=
  reCatL [reWs0,
    reAltL
      [ reCatL [reDigits1, RE.star (RE.cat (reChar '.') reDigits1), reOpt (reChar '.')],
        reCatL [RE.cls CC.ccUpper, RE.star reLetter, reChar '.'],
        reCatL [reChar '(', reLetter, reChar ')'],
        reCatL [reDigits1, reChar ')'] ],
    reWs0, reAnyStar]

/-- r"^\s*(\d+\.?|\([a-zA-Z]\)|\w\.|\s*[*+-]\s*)$" from
`_is_redundant_line` rule 3 (source line 174). -/
def reShortToken : RE :=
  reCatL [reWs0,
    reAltL
      [ RE.cat reDigits1 (reOpt (reChar '.')),
        reCatL [reChar '(', reLetter, reChar ')'],
        RE.cat (RE.cls CC.ccWord) (reChar '.'),
        reCatL [reWs0, RE.cls (CC.ccSet "*+-".data), reWs0] ]]

/-- r'.*\d+\.$' from `merge_multiline_headings` (source line 663). -/
def reEndsEnumPeriod : RE := reCatL [reDotStar, reDigits1, reChar '.']

/-- r"^\s*\d+\.\d+\.\d+(\.\d+)*\s+" (classification, source line 485). -/
def reThreeLevel : RE :=
  reCatL [reWs0, reDigits1, reChar '.', reDigits1, reChar '.', reDigits1,
    RE.star (RE.cat (reChar '.') reDigits1), reWs1, reAnyStar]

/-- r"^\s*\d+\.\d+\s+" (classification, source line 488). -/
def reTwoLevel : RE :=
  reCatL [reWs0, reDigits1, reChar '.', reDigits1, reWs1, reAnyStar]

/-- r"^\s*\d+\s+" (classification, source line 494). -/
def reOneLevel : RE := reCatL [reWs0, reDigits1, reWs1, reAnyStar]

/-- r"^\s*[IVXLCDM]+\s+" (classification, source line 494; no
IGNORECASE here). -/
def reRomanLevel : RE :=
  reCatL [reWs0,
    reAtLeast 1 (RE.cls (CC.ccSet "IVXLCDM".data)), reWs1, reAnyStar]

/-- r"^\s*[a-zA-Z]\.?\s*\)" (classification, source line 505). -/
def reLetterParen : RE :=
  reCatL [reWs0, reLetter, reOpt (reChar '.'), reWs0, reChar ')', reAnyStar]

/-- r"^\s*[a-zA-Z]\s*\.\s+" (classification, source line 505). -/
def reLetterDot : RE :=
  reCatL [reWs0, reLetter, reWs0, reChar '.', reWs1, reAnyStar]

/-- r'^\d+\.?$' from `extract_title` (source line 610). -/
def reBareNumber : RE := RE.cat reDigits1 (reOpt (reChar '.'))

/-- `heading_keywords` (source lines 44-56). -/
def heading_keywords : List String :=
  [ "introduction", "conclusion", "summary", "overview", "background",
    "methodology", "results", "discussion", "references", "appendix",
    "chapter", "section", "abstract", "acknowledgments", "bibliography",
    "annex", "preface", "foreword", "table of contents", "list of figures",
    "list of tables", "definitions", "scope", "purpose", "policy", "procedure",
    "executive summary", "terms and conditions", "legal", "analysis", "findings",
    "evaluation", "award", "timeline", "milestones", "approach", "requirements",
    "principles", "access", "guidance", "training", "purchasing", "technological",
    "mean", "developed", "criteria", "process", "membership", "chair", "meetings",
    "accountability", "communication", "financial", "administrative", "policies",
    "preamble", "terms of reference" ]

/-! ## Header/footer text normalization (source lines 103-110) -/

/-- The suffix-anchored alternation of
r'(\d+\s*of\s*\d+|\s*page\s*\d+\s*|-\s*\d+\s*-|\d+)$' (no IGNORECASE):
because of the `$`, a substitution deletes a whole suffix, and `re.sub`
deletes the leftmost such suffix. -/
def hfSuffixPat : RE :=
  reAltL
    [ reCatL [reDigits1, reWs0, reLit "of", reWs0, reDigits1],
      reCatL [reWs0, reLit "page", reWs0, reDigits1, reWs0],
      reCatL [reChar '-', reWs0, reDigits1, reWs0, reChar '-'],
      reDigits1 ]

/-- Delete the leftmost suffix matching `hfSuffixPat` (identity when no
suffix matches). -/
def hfStripPageSuffix : List Char → List Char
  | [] => []
  | c :: rest =>
    if reMatchL hfSuffixPat (c :: rest) then []
    else c :: hfStripPageSuffix rest

/-- r'\d{4}-\d{2}-\d{2}': fixed-length 10. -/
def datePat : RE :=
  reCatL [reRep 4 reDigit, reChar '-', reRep 2 reDigit, reChar '-', reRep 2 reDigit]

/-- r'[0-9a-f]{32}': fixed-length 32. -/
def hexPat : RE :=
  reRep 32 (RE.cls (CC.ccSet "0123456789abcdef".data))

/-- `re.sub(pat, '', s)` for a pattern whose every match has fixed
length `k`: scan left to right, deleting each (non-overlapping) match. -/
def scanDelFixed (pat : RE) (k : Nat) : List Char → List Char
  | [] => []
  | c :: rest =>
    if reMatchL pat (List.take k (c :: rest)) then
      scanDelFixed pat k (List.drop (k - 1) rest)
    else c :: scanDelFixed pat k rest
termination_by l => l.length
decreasing_by
  · simp only [List.length_cons, List.length_drop]
    omega
  · simp

/-- `_normalize_text_for_hf_comparison` (source lines 103-110). -/
def _normalize_text_for_hf_comparison (text : String) : String :=
  let n1 := pyLower (pyStrip (collapseWs text))
  let n2 := pyStrip (String.mk (hfStripPageSuffix n1.data))
  let n3 := pyStrip (String.mk (scanDelFixed datePat 10 n2.data))
  pyStrip (String.mk (scanDelFixed hexPat 32 n3.data))

/-! ## Data model -/

structure BBox where
  x0 : ℚ
  y0 : ℚ
  x1 : ℚ
  y1 : ℚ
deriving DecidableEq

/-- A span of the external layout API (`get_text("dict")`). -/
structure Span where
  text : String
  size : ℚ
  font : String
  flags : Nat
  color : ℤ
deriving DecidableEq

structure RawLine where
  spans : List Span
  bbox : BBox
deriving DecidableEq

/-- A block; image blocks carry no `"lines"` key, modelled by `none`. -/
structure RawBlock where
  bbox : BBox
  lines : Option (List RawLine)
deriving DecidableEq

structure RawPage where
  width : ℚ
  height : ℚ
  blocks : List RawBlock
deriving DecidableEq

abbrev RawDoc := List RawPage

/-- The per-line feature dict built by
`extract_text_lines_with_features` (source lines 264-284).  The Python
dict never receives a `whitespace_below` key, so that field is an
`Option` (`none` = key absent); `capRat` embeds the key `cap_ratio`. -/
structure LineRec where
  text : String
  page : Nat
  font_size : ℚ
  font_name : String
  is_bold : Bool
  is_italic : Bool
  bbox : BBox
  color : ℤ
  rel_font_size : ℚ
  x_pos : ℚ
  y_pos : ℚ
  whitespace_above : ℚ
  whitespace_below : Option ℚ
  seq_idx : Nat
  word_count : Nat
  capRat : ℚ
  ends_with_period : Bool
  ends_with_colon : Bool
  has_enum : Bool
  has_cue : Bool
  heading_score : ℚ
deriving DecidableEq

/-- Key of `_hf_candidates`: `(normalized_text, y_bucket, is_top_zone)`. -/
abbrev HFKey := String × ℤ × Bool

/-- The extractor's per-document mutable state (source lines 84-86). -/
structure HFState where
  hf_candidates : List (HFKey × Nat)
  total_pages_in_doc : Nat
  page_dimensions : List (ℤ × (ℚ × ℚ))
deriving DecidableEq

/-- `_reset_state` (source lines 88-93). -/
def resetHFState : HFState :=
  { hf_candidates := [], total_pages_in_doc := 0, page_dimensions := [] }

/-- `defaultdict(int)` increment. -/
def bumpCount {K : Type} [DecidableEq K] : List (K × Nat) → K → List (K × Nat)
  | [], k => [(k, 1)]
  | (k0, n) :: t, k => if k0 = k then (k0, n + 1) :: t else (k0, n) :: bumpCount t k

def lookupAssoc {K V : Type} [DecidableEq K] : List (K × V) → K → Option V
  | [], _ => none
  | (k0, v) :: t, k => if k0 = k then some v else lookupAssoc t k

/-- `_is_bold` (bit 0 of the span flags). -/
def _is_bold (flags : Nat) : Bool := Nat.testBit flags 0

/-- `_is_italic` (bit 1 of the span flags). -/
def _is_italic (flags : Nat) : Bool := Nat.testBit flags 1

/-- `" ".join(s["text"] for s in l["spans"]).strip()`. -/
def lineTextOf (l : RawLine) : String :=
  pyStrip (String.intercalate " " (l.spans.map Span.text))

/-! ## Header/footer census (source lines 112-150) -/

/-- One line of the census pass of `_pre_process_for_hf_detection`. -/
def hfScanLine (pagesToScan : Nat) (pageNum : Nat) (height : ℚ) (acc : List (HFKey × Nat))
    (l : RawLine) : List (HFKey × Nat) :=
  let line_text := lineTextOf l
  if line_text = "" then acc
  else
    let y_pos_top := l.bbox.y0
    let y_pos_bottom := l.bbox.y1
    let in_top_zone : Bool := decide (y_pos_top < height * (6/100))
    let in_bottom_zone : Bool := decide (y_pos_bottom > height * (1 - 6/100))
    if (in_top_zone || in_bottom_zone) && decide (pageNum < pagesToScan) then
      let normalized_text := _normalize_text_for_hf_comparison line_text
      if (!(normalized_text = "")) && decide (normalized_text.length > 3) then
        let y_bucket : ℤ := pyInt (y_pos_top / 5) * 5
        bumpCount acc (normalized_text, y_bucket, in_top_zone)
      else acc
    else acc

/-- `_pre_process_for_hf_detection` (source lines 112-150): populates
the census over the header/footer zones of the first
`min(totalPages, 10)` pages and records every page's dimensions. -/
def _pre_process_for_hf_detection (doc : RawDoc) : HFState :=
  let total := doc.length
  let pagesToScan := min total 10
  let cands := doc.enum.foldl (fun acc pi =>
    pi.2.blocks.foldl (fun acc b =>
      match b.lines with
      | none => acc
      | some ls => ls.foldl (hfScanLine pagesToScan pi.1 pi.2.height) acc) acc) []
  { hf_candidates := cands,
    total_pages_in_doc := total,
    page_dimensions := doc.enum.map (fun pi => ((pi.1 : ℤ), (pi.2.width, pi.2.height))) }

/-! ## Redundant-line filter (source lines 152-194) -/

/-- `_is_redundant_line`.  Rule 1: fixed non-content patterns; rule 2
computes the positional zones (`in_top_zone` feeds rule 4's census
key); rule 3: short lines except accepted short tokens; rule 4: the
header/footer repetition census. -/
def _is_redundant_line (st : HFState) (text : String) (y_top y_bottom : ℚ)
    (page_num : ℤ) : Bool :=
  let text_lower := pyLower (pyStrip text)
  let page_height := ((lookupAssoc st.page_dimensions page_num).map Prod.snd).getD 842
  if nonContentHit text_lower then true
  else
    let in_top_zone : Bool := decide (y_top < page_height * (6/100))
    let _in_bottom_zone : Bool := decide (y_bottom > page_height * (1 - 6/100))
    if (pyStrip text).length < 5 then
      if reMatchS reShortToken (pyStrip text) then false else true
    else if st.total_pages_in_doc > 0 then
      let normalized_text := _normalize_text_for_hf_comparison text
      let y_bucket : ℤ := pyInt (y_top / 5) * 5
      if (!(normalized_text = "")) && decide (normalized_text.length > 3) then
        match lookupAssoc st.hf_candidates (normalized_text, y_bucket, in_top_zone) with
        | some count =>
          if count ≥ 3 ∧ (count : ℚ) / (st.total_pages_in_doc : ℚ) ≥ 3/4 then true
          else false
        | none => false
      else false
    else false

/-! ## Heading scorer (source lines 312-448)

`calculate_heading_score` is additive; each score block below is one
`current_score_component` block of the source, in source order.  The
font-size block is fallible: when `avg_doc_font_size <= 0` the guarded
assignment to `size_ratio` is skipped, yet the debug f-string on source
line 337 still evaluates `size_ratio` (f-strings are evaluated before
`logging.debug` is called), raising `UnboundLocalError`.  That raise is
the `Except.error` case. -/

def font_size_component (line : LineRec) (avg : ℚ) : Except Unit ℚ :=
  if avg > 0 then
    let sizeRat := line.font_size / avg
    Except.ok (if sizeRat ≥ 9/5 then 50
      else if sizeRat ≥ 3/2 then 35
      else if sizeRat > 13/10 then 25
      else 0)
  else Except.error ()

def bold_component (line : LineRec) : ℚ := if line.is_bold then 45 else 0

def italic_component (line : LineRec) : ℚ := if line.is_italic then 0 else 0

def pattern_component (line : LineRec) : ℚ :=
  if heading_patterns.any (fun p => reMatchS p line.text) then 30 else 0

def enum_component (line : LineRec) : ℚ := if line.has_enum then 35 else 0

def cue_component (line : LineRec) : ℚ := if line.has_cue then 10 else 0

/-- Source lines 375-385: `body_size = avg_doc_font_size`;
`combined_whitespace = line.get('whitespace_above', 0.0) +
line.get('whitespace_below', 0.0)`. -/
def whitespace_component (line : LineRec) (avg : ℚ) : ℚ :=
  let combined_whitespace := line.whitespace_above + line.whitespace_below.getD 0
  if combined_whitespace > avg * (5/2) then 15
  else if combined_whitespace > avg * (3/2) then 10
  else if combined_whitespace > avg * (4/5) then 5
  else 0

/-- `self._page_dimensions.get(line_data['page'] - 1)`, width, default
595.0 (source lines 389-390). -/
def pageWidthFor (dims : List (ℤ × (ℚ × ℚ))) (page : Nat) : ℚ :=
  ((lookupAssoc dims ((page : ℤ) - 1)).map Prod.fst).getD 595

def left_align_component (line : LineRec) (dims : List (ℤ × (ℚ × ℚ))) : ℚ :=
  let page_width := pageWidthFor dims line.page
  let typical_left_margin := page_width * (12/100)
  if |line.x_pos - typical_left_margin| < 10 then 10 else 0

def center_component (line : LineRec) (dims : List (ℤ × (ℚ × ℚ))) : ℚ :=
  let page_width := pageWidthFor dims line.page
  let text_center_x := line.x_pos + (line.bbox.x1 - line.x_pos) / 2
  let page_center_x := page_width / 2
  if |text_center_x - page_center_x| < page_width * (8/100) then 12 else 0

def word_count_component (line : LineRec) : ℚ :=
  if 2 ≤ line.word_count ∧ line.word_count ≤ 18 then 6
  else if line.word_count > 28 then -30
  else if line.word_count < 2 then -25
  else 0

/-- Source lines 417-423; `cap_ratio == 1.0 and word_count <=
MAX_HEADING_WORD_COUNT / 2` with `18 / 2 = 9.0`. -/
def capitalization_component (line : LineRec) : ℚ :=
  if line.capRat = 1 ∧ (line.word_count : ℚ) ≤ 18 / 2 then 12
  else if pyIstitle line.text ∧ line.word_count ≤ 18 then 8
  else 0

def punct_component (line : LineRec) : ℚ :=
  if line.ends_with_period then -45
  else if line.ends_with_colon then 15
  else if ¬(line.ends_with_period ∨ line.ends_with_colon) then 10
  else 0

def first_page_component (line : LineRec) (avg : ℚ) : ℚ :=
  if line.page = 1 ∧ line.y_pos < 120 ∧ line.font_size ≥ avg * (9/5) then 25 else 0

def color_component (line : LineRec) : ℚ := if line.color = 0 then 3 else 0

/-- `calculate_heading_score` (source lines 312-448). -/
def calculate_heading_score (line : LineRec) (avg : ℚ)
    (dims : List (ℤ × (ℚ × ℚ))) : Except Unit ℚ :=
  if line.text = "" then Except.ok 0
  else match font_size_component line avg with
  | Except.error e => Except.error e
  | Except.ok c1 =>
    Except.ok (c1 + bold_component line + italic_component line +
      pattern_component line + enum_component line + cue_component line +
      whitespace_component line avg + left_align_component line dims +
      center_component line dims + word_count_component line +
      capitalization_component line + punct_component line +
      first_page_component line avg + color_component line)

/-! ## Stable sorting

Python's `sorted` is stable; so is `List.insertionSort` used with the
reflexive "sorts no later than" relation of a key, and a stable sort's
output is uniquely determined by that relation and the input order, so
the two agree exactly. -/

def lexQQle (p q : ℚ × ℚ) : Prop := p.1 < q.1 ∨ (p.1 = q.1 ∧ p.2 ≤ q.2)

instance (p q : ℚ × ℚ) : Decidable (lexQQle p q) := by
  unfold lexQQle; infer_instance

def lexNQle (p q : ℕ × ℚ) : Prop := p.1 < q.1 ∨ (p.1 = q.1 ∧ p.2 ≤ q.2)

instance (p q : ℕ × ℚ) : Decidable (lexNQle p q) := by
  unfold lexNQle; infer_instance

/-! ## Feature extraction (source lines 196-291) -/

/-- Document-wide mean font size over all positive span sizes, default
12.0 (source lines 204-211); computed on the raw, unfiltered spans. -/
def avg_doc_font_size_of (doc : RawDoc) : ℚ :=
  let sizes := doc.flatMap (fun p => p.blocks.flatMap (fun b =>
    (b.lines.getD []).flatMap (fun l =>
      l.spans.filterMap (fun s => if s.size > 0 then some s.size else none))))
  if sizes.isEmpty then 12 else sizes.sum / (sizes.length : ℚ)

def countUpper (s : String) : Nat := (s.data.filter Char.isUpper).length

/-- Building one feature dict (source lines 245-287): the wrapped
record is the dict literal of lines 264-284 (note: no
`whitespace_below` key), its `heading_score` computed on line 286. -/
def mkLineRecord (dims : List (ℤ × (ℚ × ℚ))) (avg : ℚ) (pageNum : Nat) (seq : Nat)
    (prevBottom : ℚ) (l : RawLine) (line_text : String) : Except Unit LineRec :=
  let line_bbox := l.bbox
  let y_top := line_bbox.y0
  let first_span := l.spans.head?
  let base : LineRec :=
    { text := line_text
      page := pageNum + 1
      font_size := (first_span.map Span.size).getD 0
      font_name := (first_span.map Span.font).getD ""
      is_bold := _is_bold ((first_span.map Span.flags).getD 0)
      is_italic := _is_italic ((first_span.map Span.flags).getD 0)
      bbox := line_bbox
      color := (first_span.map Span.color).getD 0
      rel_font_size :=
        if avg > 0 then round2 (((first_span.map Span.size).getD 0) / avg) else 0
      x_pos := line_bbox.x0
      y_pos := y_top
      whitespace_above := max 0 (round2 (y_top - prevBottom))
      whitespace_below := none
      seq_idx := seq
      word_count := pyWordCount line_text
      capRat := round2 ((countUpper line_text : ℚ) / ((max line_text.length 1 : ℕ) : ℚ))
      ends_with_period := (pyStrip line_text).endsWith "."
      ends_with_colon := (pyStrip line_text).endsWith ":"
      has_enum := reMatchS reEnum line_text
      has_cue := heading_keywords.any (fun k => containsSub k.data (pyLower line_text).data)
      heading_score := 0 }
  match calculate_heading_score base avg dims with
  | Except.error e => Except.error e
  | Except.ok s => Except.ok { base with heading_score := s }

/-! ## Extraction main loop (source lines 196-291) -/

/-- One line of the page walk: empty lines are skipped; redundant lines
only update the previous-bottom bookkeeping; surviving lines are turned
into records.  The accumulator is `(lines so far, seq_idx, previous
valid bottom y on this page)`. -/
def extractLineStep (st : HFState) (avg : ℚ) (pageNum : Nat)
    (acc : List LineRec × Nat × ℚ) (l : RawLine) : Except Unit (List LineRec × Nat × ℚ) :=
  let line_text := lineTextOf l
  if line_text = "" then Except.ok acc
  else
    let y_top := l.bbox.y0
    let y_bottom := l.bbox.y1
    if _is_redundant_line st line_text y_top y_bottom (pageNum : ℤ) then
      Except.ok (acc.1, acc.2.1, y_bottom)
    else do
      let r ← mkLineRecord st.page_dimensions avg pageNum acc.2.1 acc.2.2 l line_text
      Except.ok (acc.1 ++ [r], acc.2.1 + 1, y_bottom)

/-- Blocks (and lines within a block) are sorted by `(y0, x0)` before
the walk (source lines 222-228). -/
def sortByYX {α : Type} (key : α → BBox) (l : List α) : List α :=
  List.insertionSort (fun a b => lexQQle ((key a).y0, (key a).x0) ((key b).y0, (key b).x0)) l

def extractPage (st : HFState) (avg : ℚ) (acc : List LineRec × Nat) (pageNum : Nat)
    (p : RawPage) : Except Unit (List LineRec × Nat) := do
  let blocks_sorted := sortByYX RawBlock.bbox p.blocks
  let res ← blocks_sorted.foldlM (fun (a : List LineRec × Nat × ℚ) b =>
    match b.lines with
    | none => Except.ok a
    | some ls => (sortByYX RawLine.bbox ls).foldlM (extractLineStep st avg pageNum) a)
    (acc.1, acc.2, 0)
  Except.ok (res.1, res.2.1)

/-- `extract_text_lines_with_features` (source lines 196-291). -/
def extract_text_lines_with_features (st : HFState) (doc : RawDoc) :
    Except Unit (List LineRec) := do
  let avg := avg_doc_font_size_of doc
  let res ← doc.enum.foldlM (fun acc pi => extractPage st avg acc pi.1 pi.2) ([], 0)
  Except.ok res.1

/-! ## Font statistics (source lines 293-309) -/

structure FontStats where
  mean_font_size : ℚ
  median_font_size : ℚ
  body_font_size : ℚ
deriving DecidableEq

def dedupKeepFirst {α : Type} [DecidableEq α] : List α → List α
  | [] => []
  | x :: xs => x :: dedupKeepFirst (xs.filter (fun y => decide (y ≠ x)))
termination_by l => l.length
decreasing_by
  exact Nat.lt_succ_of_le ((List.filter_sublist _).length_le)

def countEq (l : List ℚ) (v : ℚ) : Nat := (l.filter (fun x => decide (x = v))).length

/-- `Counter(xs).most_common(1)[0][0]`: the value with the greatest
multiplicity; on ties `heapq.nlargest` keeps the first-encountered
value (dict insertion order), which the strict-improvement fold below
reproduces. -/
def mostCommonFirst (l : List ℚ) : ℚ :=
  match dedupKeepFirst l with
  | [] => 0
  | v :: vs => vs.foldl (fun best w => if countEq l w > countEq l best then w else best) v

/-- `statistics.median`. -/
def pyMedian (l : List ℚ) : ℚ :=
  let s := List.insertionSort (fun a b : ℚ => a ≤ b) l
  let n := l.length
  if n = 0 then 0
  else if n % 2 = 1 then s.getD (n / 2) 0
  else (s.getD (n / 2 - 1) 0 + s.getD (n / 2) 0) / 2

/-- `analyze_font_statistics` (source lines 293-309); `none` models the
empty dict returned when no positive sizes exist. -/
def analyze_font_statistics (text_blocks : List LineRec) : Option FontStats :=
  let font_sizes := (text_blocks.map LineRec.font_size).filter (fun s => decide (0 < s))
  if font_sizes.isEmpty then none
  else some
    { mean_font_size := font_sizes.sum / (font_sizes.length : ℚ)
      median_font_size := pyMedian font_sizes
      body_font_size := mostCommonFirst font_sizes }

/-! ## Multiline merger (source lines 625-714) -/

/-- The merged record (source lines 690-707): all fields not listed
there keep the current accumulator's values. -/
def mergeRecords (cur next : LineRec) : LineRec :=
  let newText := cur.text ++ " " ++ pyStrip next.text
  { cur with
    text := newText
    bbox :=
      { x0 := min cur.bbox.x0 next.bbox.x0
        y0 := min cur.bbox.y0 next.bbox.y0
        x1 := max cur.bbox.x1 next.bbox.x1
        y1 := max cur.bbox.y1 next.bbox.y1 }
    font_size := max cur.font_size next.font_size
    is_bold := cur.is_bold || next.is_bold
    is_italic := cur.is_italic || next.is_italic
    word_count := cur.word_count + next.word_count
    capRat := round2 ((countUpper newText : ℚ) / ((max newText.length 1 : ℕ) : ℚ))
    ends_with_period := next.ends_with_period
    ends_with_colon := next.ends_with_colon
    has_enum := cur.has_enum || next.has_enum
    has_cue := cur.has_cue || next.has_cue
    heading_score := max cur.heading_score next.heading_score }

/-- The break ("do not merge") conditions in source order (lines
644-685).  The last one transcribes line 681 verbatim: it compares
`current_merged['font_size']` against `current_merged['font_size'] *
1.5`, i.e. the accumulator's font size against itself. -/
def mergeBreak (cur next : LineRec) : Bool :=
  decide (cur.page ≠ next.page) ||
  decide (next.bbox.y0 - cur.bbox.y1 ≥ cur.font_size * (3/2)) ||
  decide (|cur.font_size - next.font_size| ≥ 2) ||
  (cur.ends_with_period && !(reMatchS reEndsEnumPeriod (pyStrip cur.text))) ||
  next.has_enum ||
  (decide (cur.word_count > 23) && decide (next.word_count > 23)) ||
  (!cur.is_bold && !next.is_bold && decide (cur.font_size < cur.font_size * (3/2)))

def mergeGo : LineRec → List LineRec → List LineRec
  | cur, [] => [cur]
  | cur, nh :: rest =>
    if mergeBreak cur nh then cur :: mergeGo nh rest
    else mergeGo (mergeRecords cur nh) rest

/-- `merge_multiline_headings` (source lines 625-714). -/
def merge_multiline_headings (headings : List LineRec) : List LineRec :=
  match List.insertionSort
      (fun a b => lexNQle (a.page, a.bbox.y0) (b.page, b.bbox.y0)) headings with
  | [] => []
  | h :: t => mergeGo h t

/-! ## Candidate selection (source lines 739-784) -/

/-- `re.sub(r'\s+', ' ', text).strip().lower()` (source line 758). -/
def normSimple (s : String) : String := pyLower (pyStrip (collapseWs s))

/-- The near-duplicate test of source lines 769-775: `last` is the
previously accepted heading (which is also `final_filtered[-1]`),
`none` before anything was accepted. -/
def selectDup (last : Option LineRec) (c : LineRec) : Bool :=
  match last with
  | none => false
  | some lb =>
    decide (lb.page = c.page) &&
    (decide (c.y_pos - lb.bbox.y1 < c.font_size * (4/5)) &&
      (decide (|c.font_size - lb.font_size| < 1) && (c.is_bold == lb.is_bold)))

/-- The selection walk (source lines 757-784): skip short or
already-seen normalized texts, skip near-duplicates of the previously
accepted heading, stop once 150 are collected. -/
def selectGo : List LineRec → List LineRec → List String → Option LineRec → List LineRec
  | [], acc, _, _ => acc
  | c :: rest, acc, seen, last =>
    let norm_text := normSimple c.text
    if norm_text.length < 5 || seen.contains norm_text then
      selectGo rest acc seen last
    else if selectDup last c then
      selectGo rest acc seen last
    else
      let acc2 := acc ++ [c]
      if acc2.length ≥ 150 then acc2
      else selectGo rest acc2 (norm_text :: seen) (some c)

/-- Threshold filter and score-descending sort (source lines 741-744). -/
def heading_candidates_of (text_lines : List LineRec) : List LineRec :=
  List.insertionSort (fun a b => b.heading_score ≤ a.heading_score)
    (text_lines.filter (fun l => decide (l.heading_score ≥ 75)))

/-- Spatial re-sort plus the selection walk (source lines 752-784). -/
def final_filtered_headings_of (text_lines : List LineRec) : List LineRec :=
  selectGo
    (List.insertionSort (fun a b => lexNQle (a.page, a.y_pos) (b.page, b.y_pos))
      (heading_candidates_of text_lines))
    [] [] none

/-! ## Level classification (source lines 451-525) -/

/-- `_get_heading_font_sizes`: `sorted(list(set(sizes)),
reverse=True)`. -/
def _get_heading_font_sizes (all_headings : List LineRec) : List ℚ :=
  List.insertionSort (fun a b : ℚ => b ≤ a)
    (dedupKeepFirst (all_headings.map LineRec.font_size))

/-- The `level_map` lookup (source lines 470-479): largest size H1,
second H2, everything else (and the `.get` default) H3.  The sizes list
is duplicate-free, so first-match lookup coincides with the Python
dict. -/
def levelFromSizes (u : List ℚ) (fs : ℚ) : String :=
  if u.head? = some fs then "H1"
  else if u.get? 1 = some fs then "H2"
  else "H3"

/-- `classify_heading_level` (source lines 455-525). -/
def classify_heading_level (heading : LineRec) (all_headings_in_order : List LineRec)
    (font_stats : Option FontStats) (dims : List (ℤ × (ℚ × ℚ))) : String :=
  if all_headings_in_order.isEmpty then "H1"
  else
    let unique_heading_sizes := _get_heading_font_sizes all_headings_in_order
    let current_level_str := levelFromSizes unique_heading_sizes heading.font_size
    let body_size := (font_stats.map FontStats.body_font_size).getD 12
    if reMatchS reThreeLevel heading.text then "H3"
    else if reMatchS reTwoLevel heading.text then
      if current_level_str ≠ "H1" then "H2" else current_level_str
    else if reMatchS reOneLevel heading.text || reMatchS reRomanLevel heading.text then
      if heading.font_size ≥ body_size * (9/5) ∧ current_level_str = "H1" then "H1"
      else "H2"
    else if reMatchS reLetterParen heading.text || reMatchS reLetterDot heading.text then
      "H3"
    else
      let page_width :=
        ((lookupAssoc dims ((heading.page : ℤ) - 1)).map Prod.fst).getD 595
      let typical_doc_margin := page_width * (1/10)
      if heading.x_pos > typical_doc_margin + 30 then
        if current_level_str = "H1" then "H2"
        else if current_level_str = "H2" then "H3"
        else current_level_str
      else current_level_str

/-! ## Title extraction (source lines 527-623) -/

/-- The fallback used on source lines 541-549 and 612-620: first line
in `(page, y)` order whose score strictly exceeds the threshold plus
ten. -/
def fallbackTitle (text_lines : List LineRec) : String :=
  let high := List.insertionSort (fun a b => lexNQle (a.page, a.y_pos) (b.page, b.y_pos))
    (text_lines.filter (fun b => decide (b.heading_score > 85)))
  match high with
  | [] => "Document"
  | h :: _ => pyStrip h.text

def titleCandLe (pw : ℚ) (a b : LineRec) : Prop :=
  lexQQle (a.y_pos, |(a.bbox.x0 + a.bbox.x1) / 2 - pw / 2|)
    (b.y_pos, |(b.bbox.x0 + b.bbox.x1) / 2 - pw / 2|)

instance (pw : ℚ) (a b : LineRec) : Decidable (titleCandLe pw a b) := by
  unfold titleCandLe; infer_instance

/-- The greedy continuation merge (source lines 589-603). -/
def titleExtendGo (pw : ℚ) (main : LineRec) : List LineRec → ℚ → List String
  | [], _ => []
  | c :: rest, curBottom =>
    if decide (c.page = main.page) &&
        (decide (|c.font_size - main.font_size| < 3/2) &&
          (decide (c.y_pos - curBottom < main.font_size * 2) &&
            (decide (|(c.bbox.x0 + c.bbox.x1) / 2 - pw / 2| < pw * (15/100)) &&
              !(nonContentHit (pyLower c.text))))) then
      pyStrip c.text :: titleExtendGo pw main rest c.bbox.y1
    else []

def maxFontSize : List LineRec → ℚ
  | [] => 0
  | l :: ls => ls.foldl (fun m x => max m x.font_size) l.font_size

/-- `extract_title` (source lines 527-623). -/
def extract_title (text_lines : List LineRec) (dims : List (ℤ × (ℚ × ℚ))) : String :=
  if text_lines.isEmpty then "Document"
  else
    let first_page_relevant_lines := text_lines.filter
      (fun line => decide (line.page = 1) && decide ((pyStrip line.text).length > 3))
    if first_page_relevant_lines.isEmpty then fallbackTitle text_lines
    else
      let max_size := maxFontSize first_page_relevant_lines
      let tc0 := first_page_relevant_lines.filter
        (fun line => decide (line.font_size = max_size) && decide (line.y_pos < 200))
      let title_candidates :=
        if tc0.isEmpty then
          first_page_relevant_lines.filter
            (fun line => decide (line.font_size ≥ max_size * (4/5)) && decide (line.y_pos < 200))
        else tc0
      if title_candidates.isEmpty then "Document"
      else
        let page_width := ((lookupAssoc dims 0).map Prod.fst).getD 595
        match List.insertionSort (titleCandLe page_width) title_candidates with
        | [] => "Document"
        | main :: rest =>
          let title_lines := pyStrip main.text :: titleExtendGo page_width main rest main.bbox.y1
          let title := pyStrip (collapseWs (String.intercalate " " title_lines))
          if title.length < 5 || reMatchS reBareNumber title || nonContentHit (pyLower title) then
            fallbackTitle text_lines
          else if title = "" then "Document"
          else title

/-! ## Pipeline orchestration (source lines 716-828) -/

structure OutlineEntry where
  level : String
  text : String
  page : ℤ
deriving DecidableEq

structure PipeResult where
  title : String
  outline : List OutlineEntry
deriving DecidableEq

/-- The result returned for empty documents and on any failure. -/
def placeholderResult : PipeResult := { title := "Document", outline := [] }

/-- Merged headings re-sorted by `(page, bbox.y0)` (source lines
789-793). -/
def merged_headings_of (text_lines : List LineRec) : List LineRec :=
  List.insertionSort (fun a b => lexNQle (a.page, a.bbox.y0) (b.page, b.bbox.y0))
    (merge_multiline_headings (final_filtered_headings_of text_lines))

/-- Outline assembly (source lines 796-805): classify each merged
heading against the whole merged set. -/
def outline_entries_of (dims : List (ℤ × (ℚ × ℚ))) (text_lines : List LineRec)
    (font_stats : Option FontStats) : List OutlineEntry :=
  (merged_headings_of text_lines).map (fun heading =>
    { level := classify_heading_level heading (merged_headings_of text_lines) font_stats dims
      text := pyStrip heading.text
      page := (heading.page : ℤ) - 1 })

/-- The body of `process_pdf`'s `try` block after a successful
`fitz.open` (source lines 723-818). -/
def runPipelineOk (doc : RawDoc) : Except Unit (HFState × PipeResult) := do
  let st := _pre_process_for_hf_detection doc
  let text_lines ← extract_text_lines_with_features st doc
  if text_lines.isEmpty then Except.ok (st, placeholderResult)
  else
    let font_stats := analyze_font_statistics text_lines
    let outline := outline_entries_of st.page_dimensions text_lines font_stats
    let title := extract_title text_lines st.page_dimensions
    Except.ok (st, { title := title, outline := outline })

/-- `process_pdf` (source lines 716-828): the incoming extractor state
is discarded by `_reset_state`; `ingest` is the outcome of
`fitz.open`; any raise anywhere inside the `try` block is caught and
answered with the placeholder result. -/
def process_pdf : HFState → Except Unit RawDoc → HFState × PipeResult :=
  fun _ ingest =>
    match ingest with
    | Except.error _ => (resetHFState, placeholderResult)
    | Except.ok doc =>
      match runPipelineOk doc with
      | Except.error _ => (_pre_process_for_hf_detection doc, placeholderResult)
      | Except.ok p => p


/-! ## Concrete documents and records used by the claim checks -/

/-- The spatial order used for the final re-sort of merged headings. -/
def pageY0le (a b : LineRec) : Prop := lexNQle (a.page, a.bbox.y0) (b.page, b.bbox.y0)

instance (a b : LineRec) : Decidable (pageY0le a b) := by
  unfold pageY0le; infer_instance

/-- A neutral line record; concrete inputs below override the fields
they care about. -/
def tmplLine : LineRec :=
  { text := "", page := 1, font_size := 12, font_name := "", is_bold := false,
    is_italic := false, bbox := { x0 := 0, y0 := 0, x1 := 0, y1 := 0 }, color := 0,
    rel_font_size := 1, x_pos := 0, y_pos := 0, whitespace_above := 0,
    whitespace_below := none, seq_idx := 0, word_count := 0, capRat := 0,
    ends_with_period := false, ends_with_colon := false, has_enum := false,
    has_cue := false, heading_score := 0 }

/-- Two adjacent, same-page, non-bold candidates with a 30pt font,
vertically 5 units apart; no break condition other than the
neither-bold one applies to them. -/
def c1A : LineRec :=
  { tmplLine with
    text := "Some big heading"
    font_size := 30
    bbox := { x0 := 50, y0 := 100, x1 := 300, y1 := 120 }
    x_pos := 50
    y_pos := 100
    word_count := 3
    heading_score := 80 }

def c1B : LineRec :=
  { tmplLine with
    text := "continued words here"
    font_size := 30
    bbox := { x0 := 50, y0 := 125, x1 := 300, y1 := 145 }
    x_pos := 50
    y_pos := 125
    word_count := 3
    heading_score := 80 }

/-- 151 scored lines above the threshold, all carrying the same text,
at distinct positions on one page. -/
def c2lines : List LineRec :=
  (List.range 151).map (fun i =>
    { tmplLine with
      text := "Heading One"
      bbox := { x0 := 50, y0 := 10 + 20 * (i : ℚ), x1 := 200, y1 := 20 + 20 * (i : ℚ) }
      x_pos := 50
      y_pos := 10 + 20 * (i : ℚ)
      word_count := 2
      heading_score := 90 })

/-- A one-page document whose top zone carries three identical lines in
the same five-unit y-bucket. -/
def c3span : Span := { text := "Hello World", size := 12, font := "F", flags := 0, color := 0 }

def c3line (y : ℚ) : RawLine :=
  { spans := [c3span], bbox := { x0 := 50, y0 := y, x1 := 200, y1 := y + 3 } }

def c3doc : RawDoc :=
  [ { width := 600, height := 800,
      blocks := [ { bbox := { x0 := 0, y0 := 0, x1 := 600, y1 := 800 },
                    lines := some [c3line 10, c3line 11, c3line 12] } ] } ]

/-- A heading whose text starts with "1." (digit, period), top-rank
font size, indented far beyond the typical margin. -/
def c4A : LineRec :=
  { tmplLine with
    text := "1. Overview"
    font_size := 20
    bbox := { x0 := 200, y0 := 100, x1 := 320, y1 := 115 }
    x_pos := 200
    y_pos := 100
    word_count := 2
    heading_score := 100 }

/-- A heading whose text starts with "1.1", second-rank font size, also
indented. -/
def c4B : LineRec :=
  { tmplLine with
    text := "1.1 Goals"
    font_size := 16
    bbox := { x0 := 200, y0 := 130, x1 := 320, y1 := 142 }
    x_pos := 200
    y_pos := 130
    word_count := 2
    heading_score := 100 }

def c4stats : Option FontStats :=
  some { mean_font_size := 12, median_font_size := 12, body_font_size := 10 }

/-- Like `c4A` but with the code's single-level enumeration shape
(digits followed by whitespace, no period). -/
def c4wA : LineRec := { c4A with text := "1 Overview" }

/-- An all-caps line containing a space, with its `cap_ratio` and
`word_count` computed by the extractor's formulas (source lines
278-279). -/
def c5line : LineRec :=
  { tmplLine with
    text := "AB CD"
    word_count := pyWordCount "AB CD"
    capRat := round2 ((countUpper "AB CD" : ℚ) / ((max "AB CD".length 1 : ℕ) : ℚ)) }

/-- A space-free all-caps line with extractor-computed features. -/
def c5wline : LineRec :=
  { tmplLine with
    text := "HELLO"
    word_count := pyWordCount "HELLO"
    capRat := round2 ((countUpper "HELLO" : ℚ) / ((max "HELLO".length 1 : ℕ) : ℚ)) }

def c6line : LineRec := { tmplLine with text := "Introduction" }

def c10raw : RawLine :=
  { spans := [ { text := "HELLO", size := 24, font := "F", flags := 1, color := 0 } ],
    bbox := { x0 := 50, y0 := 40, x1 := 150, y1 := 60 } }

/-- The record produced by the extractor for `c10raw`. -/
def c10wline : LineRec :=
  match mkLineRecord [] 12 0 0 0 c10raw "HELLO" with
  | Except.ok l => l
  | Except.error _ => tmplLine

/-! ## Helper lemmas -/

theorem lexNQle_total (p q : ℕ × ℚ) : lexNQle p q ∨ lexNQle q p := by
  unfold lexNQle
  rcases lt_trichotomy p.1 q.1 with h | h | h
  · exact Or.inl (Or.inl h)
  · rcases le_total p.2 q.2 with h2 | h2
    · exact Or.inl (Or.inr ⟨h, h2⟩)
    · exact Or.inr (Or.inr ⟨h.symm, h2⟩)
  · exact Or.inr (Or.inl h)

theorem lexNQle_trans {p q r : ℕ × ℚ} (h1 : lexNQle p q) (h2 : lexNQle q r) :
    lexNQle p r := by
  unfold lexNQle at *
  rcases h1 with h1 | ⟨e1, h1⟩ <;> rcases h2 with h2 | ⟨e2, h2⟩
  · exact Or.inl (h1.trans h2)
  · exact Or.inl (e2 ▸ h1)
  · exact Or.inl (e1 ▸ h2)
  · exact Or.inr ⟨e1.trans e2, h1.trans h2⟩

theorem merged_headings_sorted (text_lines : List LineRec) :
    List.Pairwise pageY0le (merged_headings_of text_lines) := by
  haveI : IsTotal LineRec pageY0le := ⟨fun a b => lexNQle_total _ _⟩
  haveI : IsTrans LineRec pageY0le := ⟨fun _ _ _ => lexNQle_trans⟩
  have h := List.sorted_insertionSort pageY0le
    (merge_multiline_headings (final_filtered_headings_of text_lines))
  exact h

theorem selectGo_length_le :
    ∀ (cands acc : List LineRec) (seen : List String) (last : Option LineRec),
      acc.length < 150 → (selectGo cands acc seen last).length ≤ 150 := by
  intro cands
  induction cands with
  | nil =>
    intro acc seen last h
    simpa [selectGo] using Nat.le_of_lt h
  | cons c rest ih =>
    intro acc seen last h
    simp only [selectGo]
    split
    · exact ih acc seen last h
    · split
      · exact ih acc seen last h
      · split
        · have hx : (acc ++ [c]).length = acc.length + 1 := by simp
          omega
        · refine ih (acc ++ [c]) _ _ ?_
          rename_i hcap
          have hx : (acc ++ [c]).length = acc.length + 1 := by simp
          omega

theorem mergeGo_length_le : ∀ (t : List LineRec) (cur : LineRec),
    (mergeGo cur t).length ≤ t.length + 1 := by
  intro t
  induction t with
  | nil => intro cur; simp [mergeGo]
  | cons nh rest ih =>
    intro cur
    unfold mergeGo
    split
    · simpa using Nat.succ_le_succ (ih nh)
    · exact (ih _).trans (Nat.le_succ _)

theorem merge_multiline_headings_length_le (hs : List LineRec) :
    (merge_multiline_headings hs).length ≤ hs.length := by
  unfold merge_multiline_headings
  have hlen := (List.perm_insertionSort
    (fun a b => lexNQle (a.page, a.bbox.y0) (b.page, b.bbox.y0)) hs).length_eq
  cases h : List.insertionSort
      (fun a b => lexNQle (a.page, a.bbox.y0) (b.page, b.bbox.y0)) hs with
  | nil => simp
  | cons a t =>
    rw [h] at hlen
    calc (mergeGo a t).length ≤ t.length + 1 := mergeGo_length_le t a
      _ = hs.length := by simpa using hlen

theorem final_filtered_length_le (text_lines : List LineRec) :
    (final_filtered_headings_of text_lines).length ≤ 150 := by
  unfold final_filtered_headings_of
  exact selectGo_length_le _ [] [] none (by simp)

theorem merged_headings_length_le (text_lines : List LineRec) :
    (merged_headings_of text_lines).length ≤ 150 := by
  unfold merged_headings_of
  have h1 := (List.perm_insertionSort
    (fun a b => lexNQle (a.page, a.bbox.y0) (b.page, b.bbox.y0))
    (merge_multiline_headings (final_filtered_headings_of text_lines))).length_eq
  rw [h1]
  exact (merge_multiline_headings_length_le _).trans (final_filtered_length_le _)

theorem mergeRecords_wb (cur next : LineRec) :
    (mergeRecords cur next).whitespace_below = cur.whitespace_below := rfl

theorem mergeGo_wb :
    ∀ (t : List LineRec) (cur : LineRec), cur.whitespace_below = none →
      (∀ x ∈ t, x.whitespace_below = none) →
      ∀ m ∈ mergeGo cur t, m.whitespace_below = none := by
  intro t
  induction t with
  | nil =>
    intro cur hc _ m hm
    simp [mergeGo] at hm
    subst hm
    exact hc
  | cons nh rest ih =>
    intro cur hc ht m hm
    unfold mergeGo at hm
    split at hm
    · rcases List.mem_cons.mp hm with hm1 | hm2
      · subst hm1; exact hc
      · exact ih nh (ht nh (by simp)) (fun x hx => ht x (by simp [hx])) m hm2
    · exact ih (mergeRecords cur nh) (by rw [mergeRecords_wb]; exact hc)
        (fun x hx => ht x (by simp [hx])) m hm

theorem merge_wb (hs : List LineRec) (h : ∀ x ∈ hs, x.whitespace_below = none) :
    ∀ m ∈ merge_multiline_headings hs, m.whitespace_below = none := by
  intro m hm
  unfold merge_multiline_headings at hm
  have hperm := List.perm_insertionSort
    (fun a b => lexNQle (a.page, a.bbox.y0) (b.page, b.bbox.y0)) hs
  have hall : ∀ x ∈ List.insertionSort
      (fun a b => lexNQle (a.page, a.bbox.y0) (b.page, b.bbox.y0)) hs,
      x.whitespace_below = none := fun x hx => h x (hperm.subset hx)
  cases hsrt : List.insertionSort
      (fun a b => lexNQle (a.page, a.bbox.y0) (b.page, b.bbox.y0)) hs with
  | nil => rw [hsrt] at hm; cases hm
  | cons a t =>
    rw [hsrt] at hm hall
    exact mergeGo_wb t a (hall a (by simp)) (fun x hx => hall x (by simp [hx])) m hm

theorem pySpace_not_upper (c : Char) (h : isPySpace c = true) : c.isUpper = false := by
  have h2 : c = ' ' ∨ c = '\t' ∨ c = '\n' ∨ c = '\x0d' ∨ c = '\x0b' ∨ c = '\x0c' := by
    simpa [isPySpace, or_assoc] using h
  rcases h2 with h | h | h | h | h | h <;> subst h <;> decide

theorem upper_not_pySpace (c : Char) (h : c.isUpper = true) : isPySpace c = false := by
  cases hsp : isPySpace c
  · rfl
  · rw [pySpace_not_upper c hsp] at h; cases h

theorem pyWordCountGo_none : ∀ (l : List Char), (∀ c ∈ l, isPySpace c = false) →
    pyWordCountGo l true = 0 := by
  intro l
  induction l with
  | nil => intro _; rfl
  | cons c rest ih =>
    intro h
    unfold pyWordCountGo
    rw [h c (by simp)]
    simpa using ih (fun d hd => h d (by simp [hd]))

theorem pyWordCount_all_upper (s : String) (hne : s.data ≠ [])
    (h : ∀ c ∈ s.data, c.isUpper = true) : pyWordCount s = 1 := by
  show pyWordCountGo s.data false = 1
  cases hd : s.data with
  | nil => exact absurd hd hne
  | cons c rest =>
    unfold pyWordCountGo
    rw [upper_not_pySpace c (h c (by rw [hd]; simp))]
    simp only [Bool.false_eq_true, if_false, if_true]
    rw [pyWordCountGo_none rest
      (fun d hdm => upper_not_pySpace d (h d (by rw [hd]; simp [hdm])))]

theorem countUpper_all (s : String) (h : ∀ c ∈ s.data, c.isUpper = true) :
    countUpper s = s.data.length := by
  unfold countUpper
  rw [List.filter_eq_self.mpr h]

theorem round2_one : round2 1 = 1 := by with_unfolding_all decide

theorem capRat_all_upper (s : String) (hne : s.data ≠ [])
    (h : ∀ c ∈ s.data, c.isUpper = true) :
    round2 ((countUpper s : ℚ) / ((max s.length 1 : ℕ) : ℚ)) = 1 := by
  rw [countUpper_all s h]
  have hlen : 1 ≤ s.length := by
    cases hd : s.data with
    | nil => exact absurd hd hne
    | cons c rest =>
      show 1 ≤ s.data.length
      rw [hd]; simp
  rw [Nat.max_eq_left hlen]
  have hsl : s.length = s.data.length := rfl
  rw [← hsl, div_self, round2_one]
  exact_mod_cast Nat.one_le_iff_ne_zero.mp hlen

theorem mkLineRecord_ok_wb (dims : List (ℤ × (ℚ × ℚ))) (avg : ℚ) (pageNum seq : Nat)
    (prevBottom : ℚ) (l : RawLine) (line_text : String) (line : LineRec)
    (h : mkLineRecord dims avg pageNum seq prevBottom l line_text = Except.ok line) :
    line.whitespace_below = none := by
  simp only [mkLineRecord] at h
  split at h
  · cases h
  · injection h with h2
    rw [← h2]

/-! ## The claims -/

/-- Claim C1 (code bug witnessed): `c1A`/`c1B` are adjacent same-page
candidates, neither bold, with a 30pt font (well above 1.5 times the
12pt reference body size); none of the first six break conditions
holds, yet the "neither bold" break fires — because source line 681
compares `current_merged['font_size']` with itself times 1.5, which
holds for every positive font size — so the two lines are emitted
separately instead of being merged into one heading as the claim
states. -/
theorem claim1_code_eval :
    c1A.is_bold = false ∧ c1B.is_bold = false ∧ c1A.page = c1B.page ∧
    c1A.font_size = 30 ∧ c1A.font_size > (3/2) * 12 ∧
    (decide (c1A.page ≠ c1B.page) ||
      decide (c1B.bbox.y0 - c1A.bbox.y1 ≥ c1A.font_size * (3/2)) ||
      decide (|c1A.font_size - c1B.font_size| ≥ 2) ||
      (c1A.ends_with_period && !(reMatchS reEndsEnumPeriod (pyStrip c1A.text))) ||
      c1B.has_enum ||
      (decide (c1A.word_count > 23) && decide (c1B.word_count > 23))) = false ∧
    mergeBreak c1A c1B = true ∧
    merge_multiline_headings [c1A, c1B] = [c1A, c1B] := by
  refine ⟨?_, ?_, ?_, ?_, ?_, ?_, ?_, ?_⟩ <;> with_unfolding_all decide

/-- Claim C2 (counterexample): `c2lines` yields 151 raw candidates at
or above the threshold, yet — because every candidate normalizes to the
same text and the selector deduplicates — only one heading is accepted
and the outline has one entry, not 150. -/
theorem claim2_counterexample :
    (c2lines.filter (fun l => decide (l.heading_score ≥ 75))).length = 151 ∧
    (final_filtered_headings_of c2lines).length = 1 ∧
    (outline_entries_of [] c2lines (analyze_font_statistics c2lines)).length = 1 := by
  refine ⟨?_, ?_, ?_⟩ <;> with_unfolding_all decide

/-- Claim C2 (amended): the selector accepts at most 150 headings, so
the outline of any document contains at most 150 entries, and the
merged headings behind it are in spatial `(page, yTop)` order. -/
theorem claim2_amended_cap :
    ∀ (text_lines : List LineRec) (dims : List (ℤ × (ℚ × ℚ))) (stats : Option FontStats),
      (final_filtered_headings_of text_lines).length ≤ 150 ∧
      (outline_entries_of dims text_lines stats).length ≤ 150 ∧
      List.Pairwise pageY0le (merged_headings_of text_lines) := by
  intro tl dims stats
  refine ⟨final_filtered_length_le tl, ?_, merged_headings_sorted tl⟩
  unfold outline_entries_of
  rw [List.length_map]
  exact merged_headings_length_le tl

/-- Claim C3 (code bug witnessed): on the one-page document `c3doc`
the census key `("hello world", 10, true)` reaches count 3 — the
census counts line occurrences, not pages, contradicting the
configuration comment "must appear on at least this many pages" — so
`count >= 3` and `count/totalPages >= 0.75` both hold and the
repetition rule classifies the line as redundant even though the
document has fewer than 3 pages.  (Rules 1 and 3 do not apply to it.) -/
theorem claim3_code_eval :
    c3doc.length = 1 ∧
    (_pre_process_for_hf_detection c3doc).total_pages_in_doc = 1 ∧
    lookupAssoc (_pre_process_for_hf_detection c3doc).hf_candidates
      ("hello world", 10, true) = some 3 ∧
    nonContentHit (pyLower (pyStrip "Hello World")) = false ∧
    (pyStrip "Hello World").length ≥ 5 ∧
    _is_redundant_line (_pre_process_for_hf_detection c3doc) "Hello World" 10 13 0 = true := by
  refine ⟨?_, ?_, ?_, ?_, ?_, ?_⟩ <;> with_unfolding_all decide

/-- Claim C4 (counterexample): the heading "1. Overview" (digit
followed by a period) matches none of the enumeration overrides — the
single-level pattern requires whitespace right after the digits — so
the indentation demotion applies and the classifier returns H2, not
the H1 the claim promises, even though its font size is the top rank. -/
theorem claim4_counterexample :
    c4A.text = "1. Overview" ∧
    (_get_heading_font_sizes [c4A, c4B]).head? = some c4A.font_size ∧
    reMatchS reOneLevel c4A.text = false ∧
    classify_heading_level c4A [c4A, c4B] c4stats [] = "H2" ∧
    classify_heading_level c4B [c4A, c4B] c4stats [] = "H2" := by
  refine ⟨?_, ?_, ?_, ?_, ?_⟩ <;> with_unfolding_all decide

/-- Claim C4 (amended): for a heading matching the code's single-level
enumeration pattern (digits then whitespace, e.g. "1 Overview") whose
font size is the top rank and at least 1.8 times the body size, and a
heading matching the two-level pattern ("1.1 ...") whose size-map level
is H2, the enumeration overrides return H1 and H2 respectively, before
the indentation demotion is ever reached — so indentation cannot change
these levels. -/
theorem claim4_amended_enum_overrides
    (hA hB : LineRec) (hs : List LineRec) (stats : Option FontStats)
    (dims : List (ℤ × (ℚ × ℚ)))
    (hsne : hs ≠ [])
    (hA3 : reMatchS reThreeLevel hA.text = false)
    (hA2 : reMatchS reTwoLevel hA.text = false)
    (hA1 : reMatchS reOneLevel hA.text = true)
    (hAtop : (_get_heading_font_sizes hs).head? = some hA.font_size)
    (hAbig : hA.font_size ≥ ((stats.map FontStats.body_font_size).getD 12) * (9/5))
    (hB3 : reMatchS reThreeLevel hB.text = false)
    (hB2 : reMatchS reTwoLevel hB.text = true)
    (hBlev : levelFromSizes (_get_heading_font_sizes hs) hB.font_size = "H2") :
    classify_heading_level hA hs stats dims = "H1" ∧
    classify_heading_level hB hs stats dims = "H2" := by
  have hse : hs.isEmpty = false := by
    cases hs
    · exact absurd rfl hsne
    · rfl
  constructor
  · unfold classify_heading_level
    rw [if_neg (by simp [hse])]
    simp only [hA3, hA2, hA1, levelFromSizes, hAtop, Bool.false_eq_true, if_false,
      Bool.true_or, if_true, reduceIte]
    rw [if_pos ⟨hAbig, trivial⟩]
  · unfold classify_heading_level
    rw [if_neg (by simp [hse])]
    simp only [hB3, hB2, Bool.false_eq_true, if_false, if_true]
    rw [hBlev]
    simp

/-- Claim C4 witness: the amended statement at the concrete headings
"1 Overview" (20pt, body 10pt) and "1.1 Goals" (16pt), both indented
to x=200 on a default-width page. -/
theorem claim4_witness :
    classify_heading_level c4wA [c4wA, c4B] c4stats [] = "H1" ∧
    classify_heading_level c4B [c4wA, c4B] c4stats [] = "H2" :=
  claim4_amended_enum_overrides c4wA c4B [c4wA, c4B] c4stats []
    (by with_unfolding_all decide)
    (by with_unfolding_all decide)
    (by with_unfolding_all decide)
    (by with_unfolding_all decide)
    (by with_unfolding_all decide)
    (by with_unfolding_all decide)
    (by with_unfolding_all decide)
    (by with_unfolding_all decide)
    (by with_unfolding_all decide)

/-- Claim C5 (counterexample): "AB CD" is an all-caps line (in the
`str.isupper` sense) of 2 words, yet its stored `cap_ratio` is 0.8 —
the space is not an uppercase character — so the capitalization
component contributes 0, not the +12 the claim states. -/
theorem claim5_counterexample :
    pyIsupper "AB CD" = true ∧ c5line.word_count = 2 ∧ c5line.word_count ≤ 9 ∧
    c5line.capRat = 4/5 ∧
    capitalization_component c5line = 0 := by
  refine ⟨?_, ?_, ?_, ?_, ?_⟩ <;> with_unfolding_all decide

/-- Claim C5 (amended): the +12 capitalization bonus requires the
stored `cap_ratio` to equal 1.0, i.e. (for extractor-computed features)
every character of the line — spaces included — must be an uppercase
letter; such a line is a single word, so the word bound holds
automatically.  Otherwise a title-case line of at most 18 words gets
+8. -/
theorem claim5_amended_capitalization :
    ∀ (line : LineRec),
      line.capRat = round2 ((countUpper line.text : ℚ) / ((max line.text.length 1 : ℕ) : ℚ)) →
      line.word_count = pyWordCount line.text →
      ((line.text.data ≠ [] ∧ ∀ c ∈ line.text.data, c.isUpper = true) →
        capitalization_component line = 12) ∧
      (pyIstitle line.text = true → line.word_count ≤ 18 →
        ¬(line.capRat = 1 ∧ (line.word_count : ℚ) ≤ 18 / 2) →
        capitalization_component line = 8) := by
  intro line hcap hwc
  constructor
  · rintro ⟨hne, hup⟩
    have h1 : line.capRat = 1 := by rw [hcap]; exact capRat_all_upper _ hne hup
    have h2 : line.word_count = 1 := by rw [hwc]; exact pyWordCount_all_upper _ hne hup
    unfold capitalization_component
    rw [if_pos ⟨h1, by rw [h2]; norm_num⟩]
  · intro ht hwc18 hneg
    unfold capitalization_component
    rw [if_neg hneg, if_pos ⟨ht, hwc18⟩]

/-- Claim C5 witness: the amended statement at the concrete all-caps
single-word line "HELLO". -/
theorem claim5_witness : capitalization_component c5wline = 12 :=
  (claim5_amended_capitalization c5wline rfl rfl).1
    ⟨by with_unfolding_all decide, by with_unfolding_all decide⟩

/-- Claim C6 (code bug witnessed): with mean font size 0 the scorer
raises — the guarded branch never assigns `size_ratio`, but the debug
f-string on source line 337 still reads it, an `UnboundLocalError` —
while the same line with a positive mean is scored normally.  So the
scorer is not total over "any mean font size including 0" as the claim
states. -/
theorem claim6_code_eval :
    calculate_heading_score c6line 0 [] = Except.error () ∧
    (calculate_heading_score c6line 12 []).toOption.isSome = true :=
  ⟨by with_unfolding_all rfl, by with_unfolding_all decide⟩

/-- Claim C7: an ingest failure yields exactly the placeholder result,
and in general the returned result is either the placeholder or the
complete result of a fully successful pipeline run — never anything
partial. -/
theorem claim7_failure_placeholder :
    (∀ (st : HFState) (e : Unit), (process_pdf st (Except.error e)).2 = placeholderResult) ∧
    (∀ (st : HFState) (inp : Except Unit RawDoc),
      (process_pdf st inp).2 = placeholderResult ∨
      ∃ doc stR r, inp = Except.ok doc ∧ runPipelineOk doc = Except.ok (stR, r) ∧
        (process_pdf st inp).2 = r) := by
  constructor
  · intro st e; rfl
  · intro st inp
    cases inp with
    | error e => exact Or.inl rfl
    | ok doc =>
      cases hp : runPipelineOk doc with
      | error e => exact Or.inl (by simp [process_pdf, hp])
      | ok p =>
        exact Or.inr ⟨doc, p.1, p.2, rfl, by rw [hp], by simp [process_pdf, hp]⟩

/-- Claim C8: the merged headings behind the outline are pairwise
non-decreasing in `(page, top-y)`, and the outline is exactly their
image — so outline order equals the spatial order of the merged
headings. -/
theorem claim8_outline_spatial_order :
    ∀ (text_lines : List LineRec) (dims : List (ℤ × (ℚ × ℚ))) (stats : Option FontStats),
      List.Pairwise pageY0le (merged_headings_of text_lines) ∧
      outline_entries_of dims text_lines stats =
        (merged_headings_of text_lines).map (fun heading =>
          { level := classify_heading_level heading (merged_headings_of text_lines) stats dims
            text := pyStrip heading.text
            page := (heading.page : ℤ) - 1 }) := by
  intro tl dims stats
  exact ⟨merged_headings_sorted tl, rfl⟩

/-- Claim C9: `process_pdf` begins by resetting the per-document state,
so its output — result and final state alike — does not depend on the
extractor state left behind by any previously processed document;
re-running on the same ingest outcome yields identical results. -/
theorem claim9_state_reset_determinism :
    ∀ (s1 s2 : HFState) (inp : Except Unit RawDoc),
      process_pdf s1 inp = process_pdf s2 inp :=
  fun _ _ _ => rfl

/-- Claim C10: every record built by feature extraction carries no
`whitespace_below` key (the `Option` field is `none`), hence the
scorer's combined-whitespace tiers are decided by `whitespace_above`
alone; and merging never introduces the key either. -/
theorem claim10_whitespace_below_never_set :
    ∀ (dims : List (ℤ × (ℚ × ℚ))) (avg : ℚ) (pageNum seq : Nat) (prevBottom : ℚ)
      (l : RawLine) (line_text : String) (line : LineRec),
      mkLineRecord dims avg pageNum seq prevBottom l line_text = Except.ok line →
      line.whitespace_below = none ∧
      (∀ a2 : ℚ, whitespace_component line a2 =
        (if line.whitespace_above > a2 * (5/2) then 15
          else if line.whitespace_above > a2 * (3/2) then 10
          else if line.whitespace_above > a2 * (4/5) then 5
          else 0)) ∧
      (∀ hs : List LineRec, (∀ x ∈ hs, x.whitespace_below = none) →
        ∀ m ∈ merge_multiline_headings hs, m.whitespace_below = none) := by
  intro dims avg pageNum seq prevBottom l line_text line h
  have hwb := mkLineRecord_ok_wb dims avg pageNum seq prevBottom l line_text line h
  refine ⟨hwb, ?_, merge_wb⟩
  intro a2
  unfold whitespace_component
  rw [hwb]
  simp [Option.getD]

/-- Claim C10 witness: the statement at the concrete extracted record
`c10wline`. -/
theorem claim10_witness :
    c10wline.whitespace_below = none ∧
    whitespace_component c10wline 12 =
      (if c10wline.whitespace_above > 12 * (5/2) then 15
        else if c10wline.whitespace_above > 12 * (3/2) then 10
        else if c10wline.whitespace_above > 12 * (4/5) then 5
        else 0) :=
  have h := claim10_whitespace_below_never_set [] 12 0 0 0 c10raw "HELLO" c10wline
    (by with_unfolding_all rfl)
  ⟨h.1, h.2.1 12⟩
